import Mathlib

/-!
Verification of the multi-tenant RAG MCP server (`rag-search` tool).

The repository contains two variants of the tool handler:
* the *hierarchical* variant (`main.go`): vector search over child documents,
  parent fetch with a per-request cache, deep link from child metadata;
* the *sliding-window* variant (`src/unnamed/part_000`): vector search over all
  documents of the tenant, neighbor-chunk context expansion, deep link composed
  from page id and block id.

The store is modelled as a list of `Document` rows, given in ascending distance
order for the request's query vector (the nearest-neighbor `ORDER BY` is the
external store's behavior; every claim here is independent of the actual
distances).  Network effects (the embedding call, each store query) are recorded
in an explicit trace; the embedding call and the primary search are given
success flags, and the per-hit sliding-window context query is given a per-hit
failure flag, so that the error-handling claims can be stated.
-/

namespace Rag

/-- A row of the `documents` collection.  `docType` and `parentId` are the
`doc_type` and `parent_id` columns (NULL modelled as `none`); `metadataValid`
records whether the `metadata` JSONB value decodes into a string-keyed map
(`json.Unmarshal` in `main.go`); the remaining fields are the metadata keys the
pipeline reads (`metadata->>'k'`, NULL/absent modelled as `none`). -/
structure Document where
  id : String
  content : String
  tenantId : String
  docType : Option String := none
  parentId : Option String := none
  metadataValid : Bool := true
  notionPageId : Option String := none
  chunkIndex : Option Int := none
  anchorBlockId : Option String := none
  url : Option String := none
  title : Option String := none
deriving DecidableEq

/-- Decoded row of the sliding-window variant's vector search
(`SearchResult` in `part_000`): `content, page_id, chunk_idx, block_id`. -/
structure SearchResult where
  content : String
  pageId : String
  chunkIdx : Int
  blockId : String
deriving DecidableEq

/-- Decoded row of the hierarchical variant's vector search
(`ChildHit` in `main.go`), keeping the metadata fields the formatter reads. -/
structure ChildHit where
  id : String
  content : String
  parentId : String
  notionPageId : Option String := none
  anchorBlockId : Option String := none
  url : Option String := none
  title : Option String := none
deriving DecidableEq

/-- The tool-call arguments.  `query` is `none` when the argument is missing
(`RequireString` then errors); `limit`, `neighborCount`, `tenantIdArg` are
`none` when absent (`GetInt` / `GetString` then return their defaults). -/
structure Request where
  query : Option String := none
  limit : Option Int := none
  neighborCount : Option Int := none
  tenantIdArg : Option String := none

/-- One observable network effect of a request. -/
inductive Effect where
  | embed
  | search
  | contextQuery (page : String) (lo hi : Int)
  | parentFetch (id : String)
deriving DecidableEq

/-- The MCP tool result: `NewToolResultText` or `NewToolResultError`. -/
inductive ToolResult where
  | text (s : String)
  | error (s : String)
deriving DecidableEq

/-- `strings.ReplaceAll(s, "-", "")`: remove every hyphen. -/
def stripDash (s : String) : String :=
  String.mk (s.data.filter (fun c => c ≠ '-'))

/-- Deep-link synthesis of the hierarchical variant (`main.go`):
start from the raw `url` metadata field (empty string when absent), and when a
non-empty `anchor_block_id` is present overwrite it with
`https://notion.so/{page id without hyphens}#{block id without hyphens}`. -/
def deepLinkHier (notionPageId anchorBlockId url : Option String) : String :=
  let anchorBlockID := anchorBlockId.getD ""
  let pageURL := url.getD ""
  if anchorBlockID ≠ "" then
    "https://notion.so/" ++ stripDash (notionPageId.getD "") ++ "#" ++ stripDash anchorBlockID
  else
    pageURL

/-- Deep-link synthesis of the sliding-window variant (`part_000`):
always the composed `https://notion.so/{page}#{block}` form. -/
def deepLinkSW (pageId blockId : String) : String :=
  "https://notion.so/" ++ stripDash pageId ++ "#" ++ stripDash blockId

/-- `limit := request.GetInt("limit", 5); if limit <= 0 { limit = 5 }`. -/
def effectiveLimit (arg : Option Int) : Int :=
  let l := arg.getD 5
  if l ≤ 0 then 5 else l

/-- `neighborCount := request.GetInt("neighbor_count", 2);
if neighborCount < 0 { neighborCount = 2 }` (sliding-window variant). -/
def effectiveNeighborCount (arg : Option Int) : Int :=
  let n := arg.getD 2
  if n < 0 then 2 else n

/-- Tenant resolution of the hierarchical variant: the context value when it is
a non-empty string, otherwise the `tenant_id` argument (default `""`). -/
def hierResolveTenant (ctxTenant argTenant : Option String) : String :=
  match ctxTenant with
  | some t => if t = "" then argTenant.getD "" else t
  | none => argTenant.getD ""

/-- The WHERE clause of the sliding-window context query (`sqlContext`):
`tenant_id = $1 AND metadata->>'notion_page_id' = $2 AND
(metadata->>'chunk_index')::int BETWEEN $3 AND $4`.  A NULL page id or chunk
index never satisfies the SQL comparison. -/
def contextPred (tenant page : String) (lo hi : Int) (d : Document) : Bool :=
  d.tenantId == tenant && d.notionPageId == some page &&
    (match d.chunkIndex with
     | some ci => decide (lo ≤ ci) && decide (ci ≤ hi)
     | none => false)

/-- Comparison used for `ORDER BY (metadata->>'chunk_index')::int ASC`. -/
def chunkLe (a b : Document) : Prop :=
  a.chunkIndex.getD 0 ≤ b.chunkIndex.getD 0

instance : DecidableRel chunkLe := fun a b =>
  inferInstanceAs (Decidable (a.chunkIndex.getD 0 ≤ b.chunkIndex.getD 0))

instance : IsTotal Document chunkLe :=
  ⟨fun a b => Int.le_total (a.chunkIndex.getD 0) (b.chunkIndex.getD 0)⟩

instance : IsTrans Document chunkLe :=
  ⟨fun _ _ _ hab hbc => Int.le_trans hab hbc⟩

/-- The rows returned by the sliding-window context query: the filtered rows of
the store, in ascending `chunk_index` order. -/
def queryContextDocs (store : List Document) (tenant page : String)
    (lo hi : Int) : List Document :=
  List.insertionSort chunkLe (store.filter (contextPred tenant page lo hi))

/-- The reconstructed context text (`fullContext`): each returned row's
`content` followed by a newline, concatenated in query order. -/
def contextText (store : List Document) (tenant page : String)
    (lo hi : Int) : String :=
  String.join ((queryContextDocs store tenant page lo hi).map
    (fun d => d.content ++ "\n"))

/-- Row decoding of the sliding-window vector search: scanning a NULL
`page_id`, `chunk_idx` or `block_id` into a non-pointer Go field fails, and the
row is dropped. -/
def decodeSW (d : Document) : Option SearchResult :=
  match d.notionPageId, d.chunkIndex, d.anchorBlockId with
  | some p, some c, some b => some ⟨d.content, p, c, b⟩
  | _, _, _ => none

/-- The decoded hits of the sliding-window vector search: rows of the tenant in
store (distance) order, truncated to `limit`, rows that fail to decode
dropped. -/
def swHits (store : List Document) (tenant : String) (limit : Int) :
    List SearchResult :=
  ((store.filter (fun d => d.tenantId == tenant)).take limit.toNat).filterMap
    decodeSW

/-- The formatted output entry for one sliding-window hit.  When the context
query fails the entry falls back to the hit's own content
(`"---\n%s\n\n"`); otherwise it is `"---\n%s\nSource: %s\n\n"` with the
reconstructed context and the deep link. -/
def swEntry (store : List Document) (tenant : String) (n : Int)
    (hit : SearchResult) (fails : Bool) : String :=
  if fails then
    "---\n" ++ hit.content ++ "\n\n"
  else
    "---\n" ++ contextText store tenant hit.pageId (hit.chunkIdx - n) (hit.chunkIdx + n)
      ++ "\nSource: " ++ deepLinkSW hit.pageId hit.blockId ++ "\n\n"

/-- The sliding-window tool handler (`part_000`), returning the tool result and
the trace of network effects.  `ctxTenant` is the context value installed by the
transport (none in stdio mode); `embedOk` and `searchOk` are the outcomes of the
embedding call and the primary search; `failAt i` tells whether the context
query of the `i`-th hit fails. -/
def swHandler (store : List Document) (ctxTenant : Option String)
    (req : Request) (embedOk searchOk : Bool) (failAt : Nat → Bool) :
    ToolResult × List Effect :=
  match req.query with
  | none => (.error "required argument \"query\" not found", [])
  | some _q =>
    let limit := effectiveLimit req.limit
    let neighborCount := effectiveNeighborCount req.neighborCount
    match ctxTenant with
    | none => (.error "Unauthorized: Missing X-Tenant-ID header", [])
    | some tenantID =>
      if tenantID = "" then
        (.error "Unauthorized: Missing X-Tenant-ID header", [])
      else if !embedOk then
        (.error "Failed to generate embedding", [.embed])
      else if !searchOk then
        (.error "Database query failed", [.embed, .search])
      else
        let hits := swHits store tenantID limit
        if hits.isEmpty then
          (.text "No relevant documents found.", [.embed, .search])
        else
          let entries := hits.enum.map
            (fun p => swEntry store tenantID neighborCount p.2 (failAt p.1))
          let effs := hits.map (fun hit =>
            Effect.contextQuery hit.pageId (hit.chunkIdx - neighborCount)
              (hit.chunkIdx + neighborCount))
          (.text (String.join entries), [.embed, .search] ++ effs)

/-- Row decoding of the hierarchical vector search: a NULL `parent_id` fails the
scan, and a metadata value that does not unmarshal drops the row. -/
def decodeChildHit (d : Document) : Option ChildHit :=
  match d.parentId with
  | none => none
  | some pid =>
    if d.metadataValid then
      some ⟨d.id, d.content, pid, d.notionPageId, d.anchorBlockId, d.url, d.title⟩
    else
      none

/-- The decoded hits of the hierarchical vector search
(`WHERE tenant_id = $1 AND doc_type = 'child' ... LIMIT $3`). -/
def hierHits (store : List Document) (tenant : String) (limit : Int) :
    List ChildHit :=
  ((store.filter (fun d => d.tenantId == tenant && d.docType == some "child")).take
    limit.toNat).filterMap decodeChildHit

/-- The parent fetch (`sqlParent`): `SELECT id, content, metadata FROM documents
WHERE id = $1` — note the absence of any tenant filter.  Returns the parent's
content, or `none` when no row matches or the metadata does not unmarshal. -/
def fetchParent (store : List Document) (pid : String) : Option String :=
  match store.find? (fun d => d.id == pid) with
  | none => none
  | some d => if d.metadataValid then some d.content else none

/-- One step of the parent-fetch loop: skip when the parent id is already
cached; otherwise issue the fetch (recorded in the trace) and populate the
cache only when the fetch and decode succeed. -/
def fpStep (store : List Document)
    (acc : List (String × String) × List String) (hit : ChildHit) :
    List (String × String) × List String :=
  if (acc.1.lookup hit.parentId).isSome then
    acc
  else
    match fetchParent store hit.parentId with
    | none => (acc.1, acc.2 ++ [hit.parentId])
    | some c => (acc.1 ++ [(hit.parentId, c)], acc.2 ++ [hit.parentId])

/-- The parent-fetch loop of the hierarchical variant: returns the populated
`parentCache` and the list of parent ids for which a fetch was executed, in
execution order. -/
def fetchParents (store : List Document) (hits : List ChildHit) :
    List (String × String) × List String :=
  hits.foldl (fpStep store) ([], [])

/-- The formatted output entry for one hierarchical hit: the parent's content
with title and deep link when the parent is cached, otherwise the fallback
`"---\n%s\n\n"` with the child's own content. -/
def hierEntry (cache : List (String × String)) (hit : ChildHit) : String :=
  match cache.lookup hit.parentId with
  | none => "---\n" ++ hit.content ++ "\n\n"
  | some pContent =>
    "---\nTitle: " ++ hit.title.getD "" ++ "\n" ++ pContent ++ "\nSource: "
      ++ deepLinkHier hit.notionPageId hit.anchorBlockId hit.url ++ "\n\n"

/-- The hierarchical tool handler (`main.go`), returning the tool result and
the trace of network effects. -/
def hierHandler (store : List Document) (ctxTenant : Option String)
    (req : Request) (embedOk searchOk : Bool) : ToolResult × List Effect :=
  match req.query with
  | none => (.error "required argument \"query\" not found", [])
  | some _q =>
    let limit := effectiveLimit req.limit
    let tenantID := hierResolveTenant ctxTenant req.tenantIdArg
    if tenantID = "" then
      (.error "Unauthorized: Missing tenant_id. Must be provided via X-Tenant-ID header or \x27tenant_id\x27 argument.", [])
    else if !embedOk then
      (.error "Failed to generate embedding", [.embed])
    else if !searchOk then
      (.error "Database query failed", [.embed, .search])
    else
      let hits := hierHits store tenantID limit
      if hits.isEmpty then
        (.text "No relevant documents found.", [.embed, .search])
      else
        let fp := fetchParents store hits
        (.text (String.join (hits.map (hierEntry fp.1))),
          [.embed, .search] ++ fp.2.map Effect.parentFetch)

/-- `r.Header.Get(k)`: the header value, the empty string when absent. -/
def headerGet (headers : List (String × String)) (k : String) : String :=
  (headers.lookup k).getD ""

/-- The HTTP auth middleware: unconditionally installs the `X-Tenant-ID` header
value (empty string when the header is absent) into the request context. -/
def authMiddleware (headers : List (String × String)) : Option String :=
  some (headerGet headers "X-Tenant-ID")


lemma contextPred_iff (t p : String) (lo hi : Int) (d : Document) :
    contextPred t p lo hi d = true ↔
      d.tenantId = t ∧ d.notionPageId = some p ∧
        ∃ ci, d.chunkIndex = some ci ∧ lo ≤ ci ∧ ci ≤ hi := by
  unfold contextPred
  cases hc : d.chunkIndex with
  | none => simp [hc]
  | some ci => simp [hc, and_assoc]

/-- C4: the sliding-window context text is built from exactly the same-tenant,
same-page documents whose chunk index lies in the closed window, in ascending
chunk-index order. -/
theorem c4_window_inclusive (store : List Document) (tenant page : String)
    (c n : Int) :
    (∀ d, d ∈ queryContextDocs store tenant page (c - n) (c + n) ↔
      (d ∈ store ∧ d.tenantId = tenant ∧ d.notionPageId = some page ∧
        ∃ ci, d.chunkIndex = some ci ∧ c - n ≤ ci ∧ ci ≤ c + n)) ∧
    List.Sorted chunkLe (queryContextDocs store tenant page (c - n) (c + n)) ∧
    contextText store tenant page (c - n) (c + n)
      = String.join ((queryContextDocs store tenant page (c - n) (c + n)).map
          (fun d => d.content ++ "\n")) := by
  refine ⟨fun d => ?_, ?_, rfl⟩
  · rw [queryContextDocs, List.mem_insertionSort, List.mem_filter, contextPred_iff]
  · exact List.sorted_insertionSort chunkLe _

/-- C6: a `limit` argument that is absent or not positive is coerced to 5 and a
`neighbor_count` argument that is absent or negative is coerced to 2; any other
supplied value is used unchanged. -/
theorem c6_default_coercion :
    effectiveLimit none = 5 ∧
    (∀ a : Int, a ≤ 0 → effectiveLimit (some a) = 5) ∧
    (∀ a : Int, 0 < a → effectiveLimit (some a) = a) ∧
    effectiveNeighborCount none = 2 ∧
    (∀ a : Int, a < 0 → effectiveNeighborCount (some a) = 2) ∧
    (∀ a : Int, 0 ≤ a → effectiveNeighborCount (some a) = a) := by
  refine ⟨rfl, fun a ha => ?_, fun a ha => ?_, rfl, fun a ha => ?_, fun a ha => ?_⟩
  · simp [effectiveLimit, ha]
  · simp [effectiveLimit, not_le.mpr ha]
  · simp [effectiveNeighborCount, ha]
  · simp [effectiveNeighborCount, not_lt.mpr ha]

theorem c6_default_coercion_witness :
    effectiveLimit (some (-3)) = 5 ∧ effectiveLimit (some 7) = 7 ∧
    effectiveNeighborCount (some (-1)) = 2 ∧ effectiveNeighborCount (some 0) = 0 :=
  ⟨c6_default_coercion.2.1 (-3) (by decide), c6_default_coercion.2.2.1 7 (by decide),
   c6_default_coercion.2.2.2.2.1 (-1) (by decide),
   c6_default_coercion.2.2.2.2.2 0 (by decide)⟩



/-- C3 counterexample: for a hit with page id `abc-def`, no block id and no raw
`url` metadata, the hierarchical deep-link synthesizer returns the empty
string, not the page-only link `https://notion.so/abcdef` the claim
mandates. -/
theorem c3_deep_link_counterexample :
    deepLinkHier (some "abc-def") none none = "" ∧
    ("" : String) ≠ "https://notion.so/abcdef" :=
  ⟨rfl, by decide⟩

/-- C3 (amended): with a non-empty block id both variants compose
`https://notion.so/{page id without hyphens}#{block id without hyphens}`; with
no (or an empty) block id the hierarchical variant uses the raw `url` metadata
field verbatim — the empty string, not the page-only link, when that field is
absent — while the sliding-window variant always emits the composed form,
which then ends in a bare `#` and never consults the `url` field. -/
theorem c3_deep_link_amended (p b u : Option String) :
    (b.getD "" ≠ "" → deepLinkHier p b u
       = "https://notion.so/" ++ stripDash (p.getD "") ++ "#" ++ stripDash (b.getD "")) ∧
    (b.getD "" = "" → deepLinkHier p b u = u.getD "") ∧
    (∀ pid bid, deepLinkSW pid bid
       = "https://notion.so/" ++ stripDash pid ++ "#" ++ stripDash bid) := by
  refine ⟨fun h => ?_, fun h => ?_, fun _ _ => rfl⟩
  · simp [deepLinkHier, h]
  · simp [deepLinkHier, h]

theorem c3_deep_link_amended_witness :
    deepLinkHier (some "a-b") (some "c-d") none = "https://notion.so/ab#cd" ∧
    deepLinkHier (some "a-b") none (some "http://x") = "http://x" :=
  ⟨by rw [(c3_deep_link_amended (some "a-b") (some "c-d") none).1 (by decide)]; rfl,
   by rw [(c3_deep_link_amended (some "a-b") none (some "http://x")).2.1 (by decide)]; rfl⟩

/-- C8 counterexample: on a store with zero matching rows the handler returns
the sentinel `"No relevant documents found."`, which is not the string
`"no relevant documents found"` the claim quotes. -/
theorem c8_sentinel_counterexample :
    (swHandler [] (some "T") { query := some "q" } true true (fun _ => false)).1
      = .text "No relevant documents found." ∧
    ToolResult.text "No relevant documents found."
      ≠ ToolResult.text "no relevant documents found" :=
  ⟨rfl, by decide⟩

/-- C8 (amended): when the vector search returns zero rows (or every row is
dropped during decoding) both handler variants return a successful text result
equal to the sentinel `"No relevant documents found."`. -/
theorem c8_sentinel_amended :
    (∀ store t (req : Request) q failAt, req.query = some q → t ≠ "" →
       swHits store t (effectiveLimit req.limit) = [] →
       swHandler store (some t) req true true failAt
         = (.text "No relevant documents found.", [.embed, .search])) ∧
    (∀ store ctx (req : Request) q, req.query = some q →
       hierResolveTenant ctx req.tenantIdArg ≠ "" →
       hierHits store (hierResolveTenant ctx req.tenantIdArg)
           (effectiveLimit req.limit) = [] →
       hierHandler store ctx req true true
         = (.text "No relevant documents found.", [.embed, .search])) := by
  constructor
  · intro store t req q failAt hq ht hh
    simp [swHandler, hq, ht, hh]
  · intro store ctx req q hq ht hh
    simp [hierHandler, hq, ht, hh]

theorem c8_sentinel_amended_witness :
    swHandler [] (some "T") { query := some "q" } true true (fun _ => false)
      = (.text "No relevant documents found.", [.embed, .search]) ∧
    hierHandler [] (some "T") { query := some "q" } true true
      = (.text "No relevant documents found.", [.embed, .search]) :=
  ⟨c8_sentinel_amended.1 [] "T" { query := some "q" } "q" (fun _ => false) rfl
     (by decide) rfl,
   c8_sentinel_amended.2 [] (some "T") { query := some "q" } "q" rfl (by decide) rfl⟩

/-- C9 counterexample: a request whose `query` argument is the empty string is
not rejected — the handler proceeds, invokes the embedding client and the
vector search, and returns a successful text result. -/
theorem c9_empty_query_counterexample :
    (swHandler [] (some "T") { query := some "" } true true (fun _ => false)).1
      = .text "No relevant documents found." ∧
    Effect.embed ∈ (swHandler [] (some "T") { query := some "" } true true
      (fun _ => false)).2 :=
  ⟨rfl, by decide⟩

/-- C9 (amended): only a missing `query` argument makes the handler return an
error result before any other work; neither the embedding client nor any store
query is invoked in that case.  An empty query string passes `RequireString`
and the pipeline proceeds. -/
theorem c9_missing_query_amended (store : List Document) (ctx : Option String)
    (req : Request) (embedOk searchOk : Bool) (failAt : Nat → Bool)
    (hq : req.query = none) :
    hierHandler store ctx req embedOk searchOk
      = (.error "required argument \"query\" not found", []) ∧
    swHandler store ctx req embedOk searchOk failAt
      = (.error "required argument \"query\" not found", []) := by
  constructor
  · simp [hierHandler, hq]
  · simp [swHandler, hq]

theorem c9_missing_query_amended_witness :
    hierHandler [] none {} true true
      = (.error "required argument \"query\" not found", []) ∧
    swHandler [] none {} true true (fun _ => false)
      = (.error "required argument \"query\" not found", []) :=
  c9_missing_query_amended [] none {} true true (fun _ => false) rfl



/-- A tenant-`T` child row whose `parent_id` points at a row of another
tenant. -/
def leakChild : Document :=
  { id := "c1", content := "child text", tenantId := "T", docType := some "child",
    parentId := some "p1", notionPageId := some "page", title := some "Doc" }

/-- A parent row belonging to tenant `T2`. -/
def leakParent : Document :=
  { id := "p1", content := "LEAKED-SECRET", tenantId := "T2",
    docType := some "parent" }

/-- C1: the hierarchical parent fetch (`sqlParent`) selects `WHERE id = $1`
with no tenant filter, so a request resolved to tenant `T` emits the content of
a document whose `tenant_id` is `T2 ≠ T` in its formatted output. -/
theorem c1_cross_tenant_parent_leak :
    (hierHandler [leakChild, leakParent] (some "T") { query := some "q" }
        true true).1
      = .text "---\nTitle: Doc\nLEAKED-SECRET\nSource: \n\n" ∧
    leakParent.content = "LEAKED-SECRET" ∧
    leakParent.tenantId = "T2" ∧ ("T2" : String) ≠ "T" :=
  ⟨rfl, rfl, rfl, by decide⟩

/-- C2: when neither the transport credential nor the `tenant_id` argument
yields a non-empty tenant identifier, both handler variants return an
Unauthorized error result and the effect trace is empty: neither the embedding
client nor any store query is invoked. -/
theorem c2_unauthorized_short_circuit (store : List Document)
    (ctxTenant : Option String) (req : Request) (q : String)
    (embedOk searchOk : Bool) (failAt : Nat → Bool)
    (hq : req.query = some q) (hctx : ctxTenant.getD "" = "")
    (harg : req.tenantIdArg.getD "" = "") :
    hierHandler store ctxTenant req embedOk searchOk
      = (.error "Unauthorized: Missing tenant_id. Must be provided via X-Tenant-ID header or \x27tenant_id\x27 argument.", []) ∧
    swHandler store ctxTenant req embedOk searchOk failAt
      = (.error "Unauthorized: Missing X-Tenant-ID header", []) := by
  cases ctxTenant with
  | none =>
    constructor
    · simp [hierHandler, hq, hierResolveTenant, harg]
    · simp [swHandler, hq]
  | some t =>
    have ht : t = "" := by simpa using hctx
    subst ht
    constructor
    · simp [hierHandler, hq, hierResolveTenant, harg]
    · simp [swHandler, hq]

theorem c2_unauthorized_short_circuit_witness :
    hierHandler [] none { query := some "q" } true true
      = (.error "Unauthorized: Missing tenant_id. Must be provided via X-Tenant-ID header or \x27tenant_id\x27 argument.", []) ∧
    swHandler [] none { query := some "q" } true true (fun _ => false)
      = (.error "Unauthorized: Missing X-Tenant-ID header", []) :=
  c2_unauthorized_short_circuit [] none { query := some "q" } "q" true true
    (fun _ => false) rfl rfl rfl



/-- C7: when a hit's expansion fetch fails — the sliding-window context query
errors, or the hierarchical parent is not in the cache after the fetch loop —
the formatted entry for that hit is the fallback `"---\n" ++ content ++ "\n\n"`
holding exactly the hit's own content, and the sliding-window handler still
returns a successful text result whatever the per-hit failures are. -/
theorem c7_expansion_fallback :
    (∀ store tenant n (hit : SearchResult),
       swEntry store tenant n hit true = "---\n" ++ hit.content ++ "\n\n") ∧
    (∀ (cache : List (String × String)) (hit : ChildHit),
       cache.lookup hit.parentId = none →
       hierEntry cache hit = "---\n" ++ hit.content ++ "\n\n") ∧
    (∀ store t (req : Request) q failAt, req.query = some q → t ≠ "" →
       ∃ s, (swHandler store (some t) req true true failAt).1 = .text s) := by
  refine ⟨fun store tenant n hit => rfl, fun cache hit h => ?_, ?_⟩
  · simp [hierEntry, h]
  · intro store t req q failAt hq ht
    by_cases h : (swHits store t (effectiveLimit req.limit)).isEmpty <;>
      simp [swHandler, hq, ht, h]

theorem c7_expansion_fallback_witness :
    swEntry [] "T" 2 ⟨"own content", "p", 0, "b"⟩ true
      = "---\n" ++ "own content" ++ "\n\n" ∧
    hierEntry [] ⟨"i", "own content", "p", none, none, none, none⟩
      = "---\n" ++ "own content" ++ "\n\n" ∧
    ∃ s, (swHandler [] (some "T") { query := some "q" } true true
      (fun _ => true)).1 = .text s :=
  ⟨c7_expansion_fallback.1 [] "T" 2 ⟨"own content", "p", 0, "b"⟩,
   c7_expansion_fallback.2.1 [] ⟨"i", "own content", "p", none, none, none, none⟩ rfl,
   c7_expansion_fallback.2.2 [] "T" { query := some "q" } "q" (fun _ => true) rfl
     (by decide)⟩

/-- C10: the auth middleware unconditionally installs the `X-Tenant-ID` header
value into the context (the empty string when the header is absent); both
handlers treat an installed empty string exactly like an absent credential —
the hierarchical variant falls back to the `tenant_id` argument, the
sliding-window variant returns Unauthorized — and whenever the resolved tenant
is empty the effect trace is empty, so an empty header value is never used as a
store tenant filter. -/
theorem c10_empty_header_handling :
    (∀ headers, (authMiddleware headers).isSome = true) ∧
    (∀ headers : List (String × String), headers.lookup "X-Tenant-ID" = none →
       authMiddleware headers = some "") ∧
    (∀ argTenant : Option String,
       hierResolveTenant (some "") argTenant = argTenant.getD "") ∧
    (∀ store (req : Request) embedOk searchOk failAt,
       swHandler store (some "") req embedOk searchOk failAt
         = swHandler store none req embedOk searchOk failAt) ∧
    (∀ store (req : Request) embedOk searchOk,
       hierHandler store (some "") req embedOk searchOk
         = hierHandler store none req embedOk searchOk) ∧
    (∀ store (ctx : Option String) (req : Request) embedOk searchOk failAt,
       ctx.getD "" = "" →
       (swHandler store ctx req embedOk searchOk failAt).2 = []) ∧
    (∀ store (ctx : Option String) (req : Request) embedOk searchOk,
       hierResolveTenant ctx req.tenantIdArg = "" →
       (hierHandler store ctx req embedOk searchOk).2 = []) := by
  refine ⟨fun _ => rfl, ?_, fun _ => rfl, ?_, ?_, ?_, ?_⟩
  · intro hs h
    simp [authMiddleware, headerGet, h]
  · intro store req embedOk searchOk failAt
    cases hq : req.query <;> simp [swHandler, hq]
  · intro store req embedOk searchOk
    cases hq : req.query <;> simp [hierHandler, hq, hierResolveTenant]
  · intro store ctx req embedOk searchOk failAt h
    cases ctx with
    | none => cases hq : req.query <;> simp [swHandler, hq]
    | some t =>
      have ht : t = "" := by simpa using h
      subst ht
      cases hq : req.query <;> simp [swHandler, hq]
  · intro store ctx req embedOk searchOk h
    cases hq : req.query <;> simp [hierHandler, hq, h]

theorem c10_empty_header_handling_witness :
    authMiddleware [] = some "" ∧
    (swHandler [] (some "") { query := some "q" } true true (fun _ => false)).2
      = [] ∧
    (hierHandler [] none {} true true).2 = [] :=
  ⟨c10_empty_header_handling.2.1 [] rfl,
   c10_empty_header_handling.2.2.2.2.2.1 [] (some "") { query := some "q" }
     true true (fun _ => false) rfl,
   c10_empty_header_handling.2.2.2.2.2.2 [] none {} true true rfl⟩



lemma lookup_append_isSome {l₁ l₂ : List (String × String)} {k : String}
    (h : (l₁.lookup k).isSome = true) : ((l₁ ++ l₂).lookup k).isSome = true := by
  induction l₁ with
  | nil => simp [List.lookup] at h
  | cons a tl ih =>
    obtain ⟨k₀, v₀⟩ := a
    cases hk : k == k₀ with
    | true => simp only [List.cons_append, List.lookup, hk, Option.isSome_some]
    | false =>
      simp only [List.lookup, hk] at h
      simp only [List.cons_append, List.lookup, hk]
      exact ih h

lemma lookup_append_single_ne {l : List (String × String)} {k k' v : String}
    (h : l.lookup k = none) (hne : k ≠ k') :
    ((l ++ [(k', v)]).lookup k) = none := by
  induction l with
  | nil =>
    cases hk : k == k' with
    | true => exact absurd (by simpa using hk) hne
    | false => simp only [List.nil_append, List.lookup, hk]
  | cons a tl ih =>
    obtain ⟨k₀, v₀⟩ := a
    cases hk : k == k₀ with
    | true =>
      simp only [List.lookup, hk] at h
      exact Option.noConfusion h
    | false =>
      simp only [List.lookup, hk] at h
      simp only [List.cons_append, List.lookup, hk]
      exact ih h

lemma lookup_append_single_self {l : List (String × String)} {k v : String}
    (h : l.lookup k = none) : ((l ++ [(k, v)]).lookup k) = some v := by
  induction l with
  | nil => simp only [List.nil_append, List.lookup, beq_self_eq_true]
  | cons a tl ih =>
    obtain ⟨k₀, v₀⟩ := a
    cases hk : k == k₀ with
    | true =>
      simp only [List.lookup, hk] at h
      exact Option.noConfusion h
    | false =>
      simp only [List.lookup, hk] at h
      simp only [List.cons_append, List.lookup, hk]
      exact ih h

/-- Invariant of the parent-fetch loop when the fetch of `P` succeeds: once `P`
has been fetched it is cached, so it is never fetched again. -/
lemma fetchParents_aux_succ (store : List Document) (P : String)
    (hP : (fetchParent store P).isSome = true) :
    ∀ (hits : List ChildHit) (cache : List (String × String)) (tr : List String),
      (((cache.lookup P).isSome = true ∧ tr.count P ≤ 1) ∨
        (cache.lookup P = none ∧ tr.count P = 0)) →
      (hits.foldl (fpStep store) (cache, tr)).2.count P ≤ 1 := by
  intro hits
  induction hits with
  | nil =>
    intro cache tr h
    simp only [List.foldl_nil]
    rcases h with ⟨_, h2⟩ | ⟨_, h2⟩
    · exact h2
    · simp [h2]
  | cons hit rest ih =>
    intro cache tr h
    rw [List.foldl_cons]
    by_cases hc : (cache.lookup hit.parentId).isSome = true
    · rw [show fpStep store (cache, tr) hit = (cache, tr) by simp [fpStep, hc]]
      exact ih cache tr h
    · cases hf : fetchParent store hit.parentId with
      | none =>
        rw [show fpStep store (cache, tr) hit = (cache, tr ++ [hit.parentId]) by
          simp [fpStep, hc, hf]]
        by_cases hp : hit.parentId = P
        · rw [hp] at hf
          rw [hf] at hP
          simp at hP
        · refine ih cache (tr ++ [hit.parentId]) ?_
          have hcount : (tr ++ [hit.parentId]).count P = tr.count P := by
            simp [List.count_append, List.count_singleton', hp]
          rcases h with ⟨h1, h2⟩ | ⟨h1, h2⟩
          · exact Or.inl ⟨h1, by rw [hcount]; exact h2⟩
          · exact Or.inr ⟨h1, by rw [hcount]; exact h2⟩
      | some c =>
        rw [show fpStep store (cache, tr) hit
            = (cache ++ [(hit.parentId, c)], tr ++ [hit.parentId]) by
          simp [fpStep, hc, hf]]
        have hcn : cache.lookup hit.parentId = none :=
          Option.not_isSome_iff_eq_none.mp (by simpa using hc)
        by_cases hp : hit.parentId = P
        · subst hp
          have h2 : tr.count hit.parentId = 0 := by
            rcases h with ⟨h1, _⟩ | ⟨_, h2⟩
            · rw [hcn] at h1; simp at h1
            · exact h2
          refine ih _ _ (Or.inl ⟨?_, ?_⟩)
          · rw [lookup_append_single_self hcn]; rfl
          · simp [List.count_append, h2]
        · refine ih _ _ ?_
          have hcount : (tr ++ [hit.parentId]).count P = tr.count P := by
            simp [List.count_append, List.count_singleton', hp]
          rcases h with ⟨h1, h2⟩ | ⟨h1, h2⟩
          · exact Or.inl ⟨lookup_append_isSome h1, by rw [hcount]; exact h2⟩
          · exact Or.inr ⟨lookup_append_single_ne h1 (fun he => hp he.symm),
              by rw [hcount]; exact h2⟩

/-- Invariant of the parent-fetch loop when the fetch of `P` fails: the cache
is never populated for `P`, so every hit with parent id `P` issues a fetch. -/
lemma fetchParents_aux_fail (store : List Document) (P : String)
    (hP : fetchParent store P = none) :
    ∀ (hits : List ChildHit) (cache : List (String × String)) (tr : List String),
      cache.lookup P = none →
      (hits.foldl (fpStep store) (cache, tr)).2.count P
        = tr.count P + hits.countP (fun h => h.parentId == P) := by
  intro hits
  induction hits with
  | nil => intro cache tr h; simp
  | cons hit rest ih =>
    intro cache tr h
    rw [List.foldl_cons]
    by_cases hc : (cache.lookup hit.parentId).isSome = true
    · have hp : hit.parentId ≠ P := by
        intro he
        rw [he, h] at hc
        simp at hc
      rw [show fpStep store (cache, tr) hit = (cache, tr) by simp [fpStep, hc]]
      rw [ih cache tr h]
      simp [List.countP_cons, hp]
    · cases hf : fetchParent store hit.parentId with
      | none =>
        rw [show fpStep store (cache, tr) hit = (cache, tr ++ [hit.parentId]) by
          simp [fpStep, hc, hf]]
        rw [ih cache (tr ++ [hit.parentId]) h]
        by_cases hp : hit.parentId = P
        · simp [List.count_append, List.count_singleton', List.countP_cons, hp]
          omega
        · simp [List.count_append, List.count_singleton', List.countP_cons, hp]
      | some c =>
        have hp : hit.parentId ≠ P := by
          intro he
          rw [he, hP] at hf
          exact Option.noConfusion hf
        have hcn : cache.lookup hit.parentId = none :=
          Option.not_isSome_iff_eq_none.mp (by simpa using hc)
        rw [show fpStep store (cache, tr) hit
            = (cache ++ [(hit.parentId, c)], tr ++ [hit.parentId]) by
          simp [fpStep, hc, hf]]
        rw [ih (cache ++ [(hit.parentId, c)]) (tr ++ [hit.parentId])
          (lookup_append_single_ne h (fun he => hp he.symm))]
        simp [List.count_append, List.count_singleton', List.countP_cons, hp]

/-- C5 counterexample: two hits share `parent_id = "p"` but the parent document
is missing from the store, so the fetch for `"p"` fails, the cache is never
populated, and the fetch is executed twice in one request. -/
theorem c5_refetch_counterexample :
    (fetchParents [] [⟨"a", "ca", "p", none, none, none, none⟩,
        ⟨"b", "cb", "p", none, none, none, none⟩]).2 = ["p", "p"] ∧
    ¬ (fetchParents [] [⟨"a", "ca", "p", none, none, none, none⟩,
        ⟨"b", "cb", "p", none, none, none, none⟩]).2.count "p" ≤ 1 :=
  ⟨rfl, by decide⟩

/-- C5 (amended): when the parent fetch-and-decode for a parent id succeeds,
that parent is fetched at most once per request — later hits with the same
`parent_id` are served from the cache; when it fails, the cache is not
populated and every hit with that `parent_id` issues its own fetch. -/
theorem c5_parent_dedup_amended (store : List Document) (hits : List ChildHit)
    (P : String) :
    ((fetchParent store P).isSome = true →
       (fetchParents store hits).2.count P ≤ 1) ∧
    (fetchParent store P = none →
       (fetchParents store hits).2.count P
         = hits.countP (fun h => h.parentId == P)) :=
  ⟨fun hP => fetchParents_aux_succ store P hP hits [] [] (Or.inr ⟨rfl, rfl⟩),
   fun hP => by simpa using fetchParents_aux_fail store P hP hits [] [] rfl⟩

/-- A decodable parent row for the C5 witness. -/
def okParent : Document :=
  { id := "p", content := "parent text", tenantId := "T",
    docType := some "parent" }

theorem c5_parent_dedup_amended_witness :
    (fetchParents [okParent] [⟨"a", "ca", "p", none, none, none, none⟩,
        ⟨"b", "cb", "p", none, none, none, none⟩]).2.count "p" ≤ 1 ∧
    (fetchParents [] [⟨"a", "ca", "p", none, none, none, none⟩,
        ⟨"b", "cb", "p", none, none, none, none⟩]).2.count "p"
      = [(⟨"a", "ca", "p", none, none, none, none⟩ : ChildHit),
          ⟨"b", "cb", "p", none, none, none, none⟩].countP
          (fun h => h.parentId == "p") :=
  ⟨(c5_parent_dedup_amended [okParent] _ "p").1 rfl,
   (c5_parent_dedup_amended [] _ "p").2 rfl⟩


end Rag
